import Mathlib

/-
  Verification of the weather-metrics ingestion pipeline (Proj2 of the
  CloudComputing repository: prometheus.go, kafka.go, and the Grafana
  provisioning file).

  Modelling conventions:
  * Go float64 / float32 values are modelled as rationals (no rounding is
    relevant to any claim).
  * Go `int` is modelled as Int (with the int64 range check kept where the
    source library enforces it, namely strconv.Atoi).
  * Calendar dates are modelled as integer day indices rendered to strings
    by `formatDay`; `time.Now()` is the day index `today`, and
    `AddDate(0, 0, k)` adds `k` to the day index.  A Unix timestamp `t`
    (seconds) belongs to day index `t / 86400`.
  * The JSONL durable log is a list of lines; a line is `none` when it is
    not syntactically valid JSON, `some o` when it decodes to the JSON
    object `o`.
  * Fallible or process-exiting code paths return Option / explicit result
    constructors.
-/

namespace Proj2

/-- Go dynamic value held in an `any` (interface) field.  Go equality on
interfaces compares the dynamic type and the value, so values of different
dynamic types (for example `int 401` and `float64 401`) are never equal;
this is captured by the derived structural equality. -/
inductive GoValue where
  | goInt : Int → GoValue
  | goFloat : ℚ → GoValue
  | goString : String → GoValue
  | goNil : GoValue
deriving DecidableEq

/-- Behaviour of encoding/json when decoding into an `any` field, as
documented for Unmarshal: a JSON string becomes a Go string and a JSON
number becomes a Go float64 (never an int). -/
def decodeJsonAny : Option (String ⊕ ℚ) → GoValue
  | none => .goNil
  | some (.inl s) => .goString s
  | some (.inr q) => .goFloat q

/-- JSON value (only the shapes the pipeline stores: strings and numbers). -/
inductive JValue where
  | jstr : String → JValue
  | jnum : ℚ → JValue
deriving DecidableEq

/-- JSON object: association list from key to value. -/
abbrev JObj := List (String × JValue)

/-- First binding of a key in a JSON object. -/
def jLookup (o : JObj) (k : String) : Option JValue :=
  match o with
  | [] => none
  | (k2, v) :: rest => if k2 = k then some v else jLookup rest k

/-- WeatherMessage from kafka.go: the consumer-side record that is also the
durable-log (JSONL) record.  Field names are the Go field names; the JSON
keys of the numeric fields come from the struct tags (Temp, FeelsLike,
Humidity, Speed, Degree, CloudPercent). -/
structure WeatherMessage where
  Topic : String
  Zip : String
  Date : String
  Temperature : ℚ
  FeelsLike : ℚ
  Humidity : ℚ
  WindSpeed : ℚ
  WindDegree : ℚ
  Cloud : ℚ
deriving DecidableEq

/-- json.Marshal of a WeatherMessage: one key per struct field, in struct
order, using the tag names. -/
def marshalWM (m : WeatherMessage) : JObj :=
  [("Topic", .jstr m.Topic), ("Zip", .jstr m.Zip), ("Date", .jstr m.Date),
   ("Temp", .jnum m.Temperature), ("FeelsLike", .jnum m.FeelsLike),
   ("Humidity", .jnum m.Humidity), ("Speed", .jnum m.WindSpeed),
   ("Degree", .jnum m.WindDegree), ("CloudPercent", .jnum m.Cloud)]

/-- Read a string field the way json.Unmarshal does: a missing key keeps the
zero value "", a key with a non-string value is a decode error. -/
def jGetStr (o : JObj) (k : String) : Option String :=
  match jLookup o k with
  | none => some ""
  | some (.jstr s) => some s
  | some (.jnum _) => none

/-- Read a float64 field the way json.Unmarshal does: a missing key keeps
the zero value 0, a key with a non-number value is a decode error. -/
def jGetNum (o : JObj) (k : String) : Option ℚ :=
  match jLookup o k with
  | none => some 0
  | some (.jnum q) => some q
  | some (.jstr _) => none

/-- json.Unmarshal of a JSON object into a WeatherMessage. -/
def unmarshalWM (o : JObj) : Option WeatherMessage :=
  match jGetStr o "Topic", jGetStr o "Zip", jGetStr o "Date",
        jGetNum o "Temp", jGetNum o "FeelsLike", jGetNum o "Humidity",
        jGetNum o "Speed", jGetNum o "Degree", jGetNum o "CloudPercent" with
  | some t, some z, some d, some te, some fl, some hu, some sp, some dg, some cl =>
      some ⟨t, z, d, te, fl, hu, sp, dg, cl⟩
  | _, _, _, _, _, _, _, _, _ => none

/-- One line of the durable JSONL log: `none` when the line is not valid
JSON (isInTSDB skips such lines via `continue`). -/
abbrev LogLine := Option JObj

/-- Decoding a log line into a WeatherMessage: the line must be valid JSON
and every present field must have the right type. -/
def unmarshalLine (line : LogLine) : Option WeatherMessage :=
  line.bind unmarshalWM

/-- PreCoordinateRequest from kafka.go (user input before geocoding). -/
structure PreCoordinateRequest where
  Days : Int
  ZIPCode : String
  LineNum : Int
deriving DecidableEq

/-- Rendering of a day index, standing in for Format("2006-01-02"). -/
def formatDay (n : Int) : String := toString n

/-- The target date computed by isInTSDB:
time.Now().AddDate(0, 0, req.Days-1).Format("2006-01-02"). -/
def targetDate (today : Int) (days : Int) : String := formatDay (today + (days - 1))

/-- isInTSDB from prometheus.go.  `fileContents` is `none` when the metrics
file cannot be opened (the function then returns false, i.e. fail open);
otherwise it is the list of log lines.  The sequential scan returns true at
the first line that unmarshals and matches (Zip, Date), which is the
List.any of the per-line test. -/
def isInTSDB (fileContents : Option (List LogLine)) (today : Int)
    (req : PreCoordinateRequest) : Bool :=
  let zip := req.ZIPCode
  let date := targetDate today req.Days
  match fileContents with
  | none => false
  | some lines =>
      lines.any (fun line =>
        match unmarshalLine line with
        | none => false
        | some msg => msg.Zip = zip ∧ msg.Date = date)

/-- Scan characterisation of the dedup check on a readable log. -/
theorem isInTSDB_iff_exists (lines : List LogLine) (today : Int)
    (req : PreCoordinateRequest) :
    isInTSDB (some lines) today req = true ↔
      ∃ line ∈ lines, ∃ msg, unmarshalLine line = some msg ∧
        msg.Zip = req.ZIPCode ∧ msg.Date = targetDate today req.Days := by
  simp only [isInTSDB, List.any_eq_true]
  constructor
  · rintro ⟨line, hmem, hline⟩
    refine ⟨line, hmem, ?_⟩
    rcases h : unmarshalLine line with _ | msg
    · rw [h] at hline; exact absurd hline (by simp)
    · rw [h] at hline
      exact ⟨msg, rfl, by simpa using hline⟩
  · rintro ⟨line, hmem, msg, hline, hz, hd⟩
    exact ⟨line, hmem, by simp [hline, hz, hd]⟩

/-- C1: for a dedup check with positive day count d and location code z, the
target date is today plus d-1 days, the gate reports "skip fetch"
(isInTSDB = true) exactly when some well-formed record of the log matches
(z, target date), and it reports "fetch" (isInTSDB = false) whenever the
log cannot be opened (fail open). -/
theorem dedup_gate_spec (lines : List LogLine) (today : Int)
    (req : PreCoordinateRequest) (hd : 1 ≤ req.Days) :
    targetDate today req.Days = formatDay (today + (req.Days - 1)) ∧
    (isInTSDB (some lines) today req = true ↔
      ∃ line ∈ lines, ∃ msg, unmarshalLine line = some msg ∧
        msg.Zip = req.ZIPCode ∧ msg.Date = targetDate today req.Days) ∧
    isInTSDB none today req = false := by
  refine ⟨rfl, isInTSDB_iff_exists lines today req, rfl⟩

/-- Concrete instance of the dedup gate specification: a one-line log
containing the record for ZIP 10001 at day index 2 makes the gate skip the
fetch for a 3-day request issued on day 0, and an unreadable log makes it
fetch. -/
theorem dedup_gate_spec_witness :
    isInTSDB
      (some [some (marshalWM ⟨"temperature", "10001", "2", 50, 49, 0, 0, 0, 0⟩)])
      0 ⟨3, "10001", 1⟩ = true ∧
    isInTSDB none 0 ⟨3, "10001", 1⟩ = false := by
  have h := dedup_gate_spec
    [some (marshalWM ⟨"temperature", "10001", "2", 50, 49, 0, 0, 0, 0⟩)]
    0 ⟨3, "10001", 1⟩ (by decide)
  refine ⟨h.2.1.mpr ?_, h.2.2⟩
  exact ⟨_, List.mem_singleton.mpr rfl,
    ⟨"temperature", "10001", "2", 50, 49, 0, 0, 0, 0⟩, by decide, rfl, by decide⟩

/-- Alert thresholds (the package-level variables tempLow, tempHigh,
humidityLow, humidityHigh, windHigh set by init from the environment). -/
structure AlertConfig where
  tempLow : ℚ
  tempHigh : ℚ
  humidityLow : ℚ
  humidityHigh : ℚ
  windHigh : ℚ
deriving DecidableEq

/-- Label pair (location, date) of a Prometheus gauge vector. -/
abbrev GaugeKey := String × String

/-- State of the eleven Prometheus gauge vectors of prometheus.go.  A gauge
that has never been Set for a key has no value there (`none`). -/
structure GaugeState where
  tempGauge : GaugeKey → Option ℚ
  feelsLikeGauge : GaugeKey → Option ℚ
  humidityGauge : GaugeKey → Option ℚ
  windSpeedGauge : GaugeKey → Option ℚ
  windDegreeGauge : GaugeKey → Option ℚ
  cloudGauge : GaugeKey → Option ℚ
  alertTempHigh : GaugeKey → Option ℚ
  alertTempLow : GaugeKey → Option ℚ
  alertHumidityHigh : GaugeKey → Option ℚ
  alertHumidityLow : GaugeKey → Option ℚ
  alertWindHigh : GaugeKey → Option ℚ

/-- Gauge state with no value set anywhere. -/
def initialGauges : GaugeState :=
  ⟨fun _ => none, fun _ => none, fun _ => none, fun _ => none, fun _ => none,
   fun _ => none, fun _ => none, fun _ => none, fun _ => none, fun _ => none,
   fun _ => none⟩

/-- Gauge half of updateMetrics from prometheus.go: the switch on msg.Topic
that sets the value gauges and the alert gauges for the labels
(msg.Zip, msg.Date). -/
def updateMetricsGauges (cfg : AlertConfig) (s : GaugeState)
    (msg : WeatherMessage) : GaugeState :=
  let key : GaugeKey := (msg.Zip, msg.Date)
  if msg.Topic = "temperature" then
    { s with
      tempGauge := Function.update s.tempGauge key (some msg.Temperature),
      feelsLikeGauge := Function.update s.feelsLikeGauge key (some msg.FeelsLike),
      alertTempHigh := Function.update s.alertTempHigh key
        (some (if msg.Temperature > cfg.tempHigh then 1 else 0)),
      alertTempLow := Function.update s.alertTempLow key
        (some (if msg.Temperature < cfg.tempLow then 1 else 0)) }
  else if msg.Topic = "humidity" then
    { s with
      humidityGauge := Function.update s.humidityGauge key (some msg.Humidity),
      alertHumidityHigh := Function.update s.alertHumidityHigh key
        (some (if msg.Humidity > cfg.humidityHigh then 1 else 0)),
      alertHumidityLow := Function.update s.alertHumidityLow key
        (some (if msg.Humidity < cfg.humidityLow then 1 else 0)) }
  else if msg.Topic = "wind" then
    { s with
      windSpeedGauge := Function.update s.windSpeedGauge key (some msg.WindSpeed),
      windDegreeGauge := Function.update s.windDegreeGauge key (some msg.WindDegree),
      alertWindHigh := Function.update s.alertWindHigh key
        (some (if msg.WindSpeed > cfg.windHigh then 1 else 0)) }
  else if msg.Topic = "cloud" then
    { s with cloudGauge := Function.update s.cloudGauge key (some msg.Cloud) }
  else s

/-- Durable-log half of updateMetrics: under the file mutex the message is
marshalled and appended as one JSONL line; when opening the file fails the
function logs and returns with the log unchanged (`openOk = false`). -/
def appendLog (openOk : Bool) (log : List LogLine) (msg : WeatherMessage) :
    List LogLine :=
  if openOk then log ++ [some (marshalWM msg)] else log

/-- updateMetrics from prometheus.go: updates the gauges, then appends the
message to the JSONL durable log. -/
def updateMetrics (cfg : AlertConfig) (openOk : Bool)
    (st : GaugeState × List LogLine) (msg : WeatherMessage) :
    GaugeState × List LogLine :=
  (updateMetricsGauges cfg st.1 msg, appendLog openOk st.2 msg)

/-- Marshalling then unmarshalling a WeatherMessage is the identity. -/
theorem unmarshal_marshal (m : WeatherMessage) :
    unmarshalWM (marshalWM m) = some m := by
  rfl

/-- C4: a WeatherMessage appended to the durable log by updateMetrics with
Zip z and Date e is found by a subsequent isInTSDB lookup for a request
with location code z whose computed target date equals e. -/
theorem append_then_dedup_finds (cfg : AlertConfig)
    (st : GaugeState × List LogLine) (msg : WeatherMessage)
    (today : Int) (req : PreCoordinateRequest)
    (hz : req.ZIPCode = msg.Zip)
    (he : targetDate today req.Days = msg.Date) :
    isInTSDB (some (updateMetrics cfg true st msg).2) today req = true := by
  apply (isInTSDB_iff_exists _ today req).mpr
  refine ⟨some (marshalWM msg), ?_, msg, ?_, hz.symm, he.symm⟩
  · simp [updateMetrics, appendLog]
  · simpa [unmarshalLine] using unmarshal_marshal msg

/-- Concrete append-then-scan round trip: the record written for ZIP 10001
at day index 0 is found by a 1-day lookup on day 0. -/
theorem append_then_dedup_finds_witness :
    isInTSDB
      (some (updateMetrics ⟨32, 90, 30, 70, 40⟩ true (initialGauges, [])
        ⟨"wind", "10001", "0", 0, 0, 0, 12, 200, 0⟩).2)
      0 ⟨1, "10001", 7⟩ = true :=
  append_then_dedup_finds ⟨32, 90, 30, 70, 40⟩ (initialGauges, [])
    ⟨"wind", "10001", "0", 0, 0, 0, 12, 200, 0⟩ 0 ⟨1, "10001", 7⟩ rfl (by decide)

/-- Transcription of claim C5 as stated (from the spec text, for
comparison with the code): after updateMetrics processes a message, every
one of the five alert gauges at the message labels equals the threshold
test on the corresponding field of that message. -/
def alertClaimAsStated (cfg : AlertConfig) (s : GaugeState)
    (m : WeatherMessage) : Prop :=
  ((updateMetricsGauges cfg s m).alertTempHigh (m.Zip, m.Date)
      = some (if m.Temperature > cfg.tempHigh then 1 else 0)) ∧
  ((updateMetricsGauges cfg s m).alertTempLow (m.Zip, m.Date)
      = some (if m.Temperature < cfg.tempLow then 1 else 0)) ∧
  ((updateMetricsGauges cfg s m).alertHumidityHigh (m.Zip, m.Date)
      = some (if m.Humidity > cfg.humidityHigh then 1 else 0)) ∧
  ((updateMetricsGauges cfg s m).alertHumidityLow (m.Zip, m.Date)
      = some (if m.Humidity < cfg.humidityLow then 1 else 0)) ∧
  ((updateMetricsGauges cfg s m).alertWindHigh (m.Zip, m.Date)
      = some (if m.WindSpeed > cfg.windHigh then 1 else 0))

/-- C5 counterexample: updateMetrics only touches the alert gauges of the
incoming message's own topic.  After a humidity message with Humidity 80
(above the default 70 threshold) sets the humidity-high alert to 1,
processing a temperature message for the same labels leaves the
humidity-high alert at 1, while the claim as stated demands 0 (the
temperature payload carries Humidity 0). -/
theorem alert_claim_counterexample :
    ¬ alertClaimAsStated ⟨32, 90, 30, 70, 40⟩
        (updateMetricsGauges ⟨32, 90, 30, 70, 40⟩ initialGauges
          ⟨"humidity", "10001", "0", 0, 0, 80, 0, 0, 0⟩)
        ⟨"temperature", "10001", "0", 50, 49, 0, 0, 0, 0⟩ := by
  intro h
  exact absurd h.2.2.1 (by decide)

/-- C5 amended: after updateMetrics processes a message, the alert gauges
of the message's own metric family at the message labels equal the
threshold tests on that message (1 when crossed, else 0), the alert gauges
of every other family are left entirely unchanged, and reprocessing the
identical message leaves every gauge with the same value (idempotent). -/
theorem updateMetrics_alerts_per_topic (cfg : AlertConfig) (s : GaugeState)
    (m : WeatherMessage) :
    (m.Topic = "temperature" →
      (updateMetricsGauges cfg s m).alertTempHigh (m.Zip, m.Date)
        = some (if m.Temperature > cfg.tempHigh then 1 else 0) ∧
      (updateMetricsGauges cfg s m).alertTempLow (m.Zip, m.Date)
        = some (if m.Temperature < cfg.tempLow then 1 else 0) ∧
      (updateMetricsGauges cfg s m).alertHumidityHigh = s.alertHumidityHigh ∧
      (updateMetricsGauges cfg s m).alertHumidityLow = s.alertHumidityLow ∧
      (updateMetricsGauges cfg s m).alertWindHigh = s.alertWindHigh) ∧
    (m.Topic = "humidity" →
      (updateMetricsGauges cfg s m).alertHumidityHigh (m.Zip, m.Date)
        = some (if m.Humidity > cfg.humidityHigh then 1 else 0) ∧
      (updateMetricsGauges cfg s m).alertHumidityLow (m.Zip, m.Date)
        = some (if m.Humidity < cfg.humidityLow then 1 else 0) ∧
      (updateMetricsGauges cfg s m).alertTempHigh = s.alertTempHigh ∧
      (updateMetricsGauges cfg s m).alertTempLow = s.alertTempLow ∧
      (updateMetricsGauges cfg s m).alertWindHigh = s.alertWindHigh) ∧
    (m.Topic = "wind" →
      (updateMetricsGauges cfg s m).alertWindHigh (m.Zip, m.Date)
        = some (if m.WindSpeed > cfg.windHigh then 1 else 0) ∧
      (updateMetricsGauges cfg s m).alertTempHigh = s.alertTempHigh ∧
      (updateMetricsGauges cfg s m).alertTempLow = s.alertTempLow ∧
      (updateMetricsGauges cfg s m).alertHumidityHigh = s.alertHumidityHigh ∧
      (updateMetricsGauges cfg s m).alertHumidityLow = s.alertHumidityLow) ∧
    (m.Topic = "cloud" →
      (updateMetricsGauges cfg s m).alertTempHigh = s.alertTempHigh ∧
      (updateMetricsGauges cfg s m).alertTempLow = s.alertTempLow ∧
      (updateMetricsGauges cfg s m).alertHumidityHigh = s.alertHumidityHigh ∧
      (updateMetricsGauges cfg s m).alertHumidityLow = s.alertHumidityLow ∧
      (updateMetricsGauges cfg s m).alertWindHigh = s.alertWindHigh) ∧
    updateMetricsGauges cfg (updateMetricsGauges cfg s m) m
      = updateMetricsGauges cfg s m := by
  by_cases h1 : m.Topic = "temperature"
  · refine ⟨fun _ => ?_, fun h => absurd (h1.symm.trans h) (by decide),
      fun h => absurd (h1.symm.trans h) (by decide),
      fun h => absurd (h1.symm.trans h) (by decide), ?_⟩
    · simp [updateMetricsGauges, h1, Function.update_same]
    · simp [updateMetricsGauges, h1, Function.update_idem]
  by_cases h2 : m.Topic = "humidity"
  · refine ⟨fun h => absurd (h2.symm.trans h) (by decide), fun _ => ?_,
      fun h => absurd (h2.symm.trans h) (by decide),
      fun h => absurd (h2.symm.trans h) (by decide), ?_⟩
    · simp [updateMetricsGauges, h1, h2, Function.update_same]
    · simp [updateMetricsGauges, h1, h2, Function.update_idem]
  by_cases h3 : m.Topic = "wind"
  · refine ⟨fun h => absurd (h3.symm.trans h) (by decide),
      fun h => absurd (h3.symm.trans h) (by decide), fun _ => ?_,
      fun h => absurd (h3.symm.trans h) (by decide), ?_⟩
    · simp [updateMetricsGauges, h1, h2, h3, Function.update_same]
    · simp [updateMetricsGauges, h1, h2, h3, Function.update_idem]
  by_cases h4 : m.Topic = "cloud"
  · refine ⟨fun h => absurd (h4.symm.trans h) (by decide),
      fun h => absurd (h4.symm.trans h) (by decide),
      fun h => absurd (h4.symm.trans h) (by decide), fun _ => ?_, ?_⟩
    · simp [updateMetricsGauges, h1, h2, h3, h4]
    · simp [updateMetricsGauges, h1, h2, h3, h4, Function.update_idem]
  · refine ⟨fun h => absurd h h1, fun h => absurd h h2, fun h => absurd h h3,
      fun h => absurd h h4, ?_⟩
    simp [updateMetricsGauges, h1, h2, h3, h4]

/-- Concrete instance of the amended alert behaviour: a wind message with
WindSpeed 55 (above the default 40 threshold) sets the wind-high alert to 1
and leaves the temperature-high alert unset. -/
theorem updateMetrics_alerts_per_topic_witness :
    (updateMetricsGauges ⟨32, 90, 30, 70, 40⟩ initialGauges
        ⟨"wind", "10001", "0", 0, 0, 0, 55, 200, 0⟩).alertWindHigh ("10001", "0")
      = some 1 ∧
    (updateMetricsGauges ⟨32, 90, 30, 70, 40⟩ initialGauges
        ⟨"wind", "10001", "0", 0, 0, 0, 55, 200, 0⟩).alertTempHigh ("10001", "0")
      = none := by
  have h := updateMetrics_alerts_per_topic ⟨32, 90, 30, 70, 40⟩ initialGauges
    ⟨"wind", "10001", "0", 0, 0, 0, 55, 200, 0⟩
  have hw := h.2.2.1 rfl
  constructor
  · rw [hw.1]; norm_num
  · rw [hw.2.1]; rfl

/-- MainResponse from kafka.go (per-sample numeric block of the forecast
API). -/
structure MainResponse where
  Temp : ℚ
  FeelsLike : ℚ
  MinTemp : ℚ
  MaxTemp : ℚ
  Pressure : Int
  SeaLevel : Int
  GroundLevel : Int
  Humidity : Int
deriving DecidableEq

/-- WeatherResponse from kafka.go. -/
structure WeatherResponse where
  ID : Int
  Main : String
  Desc : String
  Icon : String
deriving DecidableEq

/-- CloudResponse from kafka.go. -/
structure CloudResponse where
  All : Int
deriving DecidableEq

/-- WindResponse from kafka.go. -/
structure WindResponse where
  Speed : ℚ
  Deg : Int
  Gust : ℚ
deriving DecidableEq

/-- RainResponse from kafka.go. -/
structure RainResponse where
  Vol3h : ℚ
deriving DecidableEq

/-- SnowResponse from kafka.go. -/
structure SnowResponse where
  Vol3h : ℚ
deriving DecidableEq

/-- DailyResponse from kafka.go: one fixed-interval forecast sample with
its Unix timestamp. -/
structure DailyResponse where
  Time : Int
  Main : MainResponse
  Weather : List WeatherResponse
  Clouds : CloudResponse
  Wind : WindResponse
  Visibility : Int
  Pop : ℚ
  Rain : RainResponse
  Snow : SnowResponse
deriving DecidableEq

/-- APIResponse from kafka.go: overall forecast API result. -/
structure APIResponse where
  Cod : GoValue
  Message : GoValue
  DaysList : List DailyResponse
deriving DecidableEq

/-- PostLocationRequest from kafka.go (request after geocoding). -/
structure PostLocationRequest where
  Days : Int
  Name : String
  Lat : ℚ
  Lon : ℚ
  ZIPCode : String
  LineNum : Int
deriving DecidableEq

/-- TemperaturePayload from kafka.go. -/
structure TemperaturePayload where
  Location : String
  Date : String
  Temp : ℚ
  FeelsLike : ℚ
deriving DecidableEq

/-- HumidityPayload from kafka.go. -/
structure HumidityPayload where
  Location : String
  Date : String
  Humidity : ℚ
deriving DecidableEq

/-- WindPayload from kafka.go. -/
structure WindPayload where
  Location : String
  Date : String
  Speed : ℚ
  Degree : ℚ
deriving DecidableEq

/-- CloudPayload from kafka.go. -/
structure CloudPayload where
  Location : String
  Date : String
  CloudPercent : ℚ
deriving DecidableEq

/-- Value of a published broker message: one of the four per-family
payloads. -/
inductive KPayload where
  | temp : TemperaturePayload → KPayload
  | hum : HumidityPayload → KPayload
  | wind : WindPayload → KPayload
  | cloud : CloudPayload → KPayload
deriving DecidableEq

/-- One MetricEvent as published by processRequest: the topic of the writer
it goes to, the partition key, and the payload. -/
structure KEvent where
  topic : String
  key : String
  value : KPayload
deriving DecidableEq

/-- Day index of a Unix timestamp in seconds: the calendar day that
time.Unix(t, 0).Format("2006-01-02") renders. -/
def dayOfUnix (t : Int) : Int := t / 86400

/-- Rendered date of a Unix timestamp. -/
def dateOfUnix (t : Int) : String := formatDay (dayOfUnix t)

/-- Sample count requested from the forecast provider: cnt := days * 8 in
processRequest (8 three-hour samples per requested day). -/
def forecastCnt (days : Int) : Int := days * 8

/-- Loop body of processRequest for one selected sample r: builds the four
per-family payloads, the common key "zipCode-date", and the four publish
calls in writer order (temperature, humidity, wind, cloud). -/
def dayEvents (r : DailyResponse) (location zipCode : String) : List KEvent :=
  let date := dateOfUnix r.Time
  let key := zipCode ++ "-" ++ date
  [⟨"temperature", key, .temp ⟨location, date, r.Main.Temp, r.Main.FeelsLike⟩⟩,
   ⟨"humidity", key, .hum ⟨location, date, (r.Main.Humidity : ℚ)⟩⟩,
   ⟨"wind", key, .wind ⟨location, date, r.Wind.Speed, (r.Wind.Deg : ℚ)⟩⟩,
   ⟨"cloud", key, .cloud ⟨location, date, (r.Clouds.All : ℚ)⟩⟩]

/-- Publishing loop of processRequest:
for i := 0; i < days && i*8 < len(results.DaysList); i++ over the sample at
index i*8. -/
def pubLoop (days : Int) (lst : List DailyResponse) (location zipCode : String)
    (i : Nat) : List KEvent :=
  if h : (i : Int) < days ∧ i * 8 < lst.length then
    dayEvents (lst.get ⟨i * 8, h.2⟩) location zipCode
      ++ pubLoop days lst location zipCode (i + 1)
  else []
termination_by (days - i).toNat
decreasing_by omega

/-- processRequest from prometheus.go, given the decoded forecast response:
exits the process (`none`) when results.Cod is not the string "200",
otherwise publishes the per-day events. -/
def processRequest (req : PostLocationRequest) (results : APIResponse) :
    Option (List KEvent) :=
  if results.Cod ≠ .goString "200" then none
  else some (pubLoop req.Days results.DaysList req.Name req.ZIPCode 0)

/-- All-zero forecast sample (the Go zero value of DailyResponse), used as
the default for out-of-range indexing in statements. -/
def zeroSample : DailyResponse :=
  ⟨0, ⟨0, 0, 0, 0, 0, 0, 0, 0⟩, [], ⟨0⟩, ⟨0, 0, 0⟩, 0, 0, ⟨0⟩, ⟨0⟩⟩

/-- When the provider returned at least days*8 samples, the publishing loop
from index i produces exactly the blocks for indices i, i+1, ..., days-1. -/
theorem pubLoop_eq_range' (days : Int) (lst : List DailyResponse)
    (location zipCode : String) (hlen : days.toNat * 8 ≤ lst.length) :
    ∀ n i, days.toNat - i = n →
      pubLoop days lst location zipCode i =
        (List.range' i n).flatMap
          (fun j => dayEvents (lst.getD (j * 8) zeroSample) location zipCode) := by
  intro n
  induction n with
  | zero =>
      intro i hi
      rw [pubLoop, dif_neg]
      · simp
      · rintro ⟨h1, _⟩; omega
  | succ m ih =>
      intro i hi
      have hil : (i : Int) < days := by omega
      have hlt : i * 8 < lst.length := by omega
      rw [pubLoop, dif_pos ⟨hil, hlt⟩, List.range'_succ, List.flatMap_cons]
      congr 1
      · congr 1
        rw [List.getD_eq_getElem?_getD, List.getElem?_eq_getElem hlt,
          Option.getD_some, List.get_eq_getElem]
      · exact ih (i + 1) (by omega)

/-- Per-day block of published topics, in order. -/
theorem dayEvents_topics (r : DailyResponse) (location zipCode : String) :
    (dayEvents r location zipCode).map KEvent.topic
      = ["temperature", "humidity", "wind", "cloud"] := rfl

/-- C2: when the decoded forecast response has status "200" and carries at
least days*8 samples, processRequest publishes exactly 4*days events — for
each requested day one temperature, one humidity, one wind and one cloud
event (the per-day block built from the sample at index i*8). -/
theorem processRequest_event_counts (req : PostLocationRequest)
    (results : APIResponse) (h200 : results.Cod = .goString "200")
    (hlen : req.Days.toNat * 8 ≤ results.DaysList.length) :
    ∃ evs, processRequest req results = some evs ∧
      evs = (List.range req.Days.toNat).flatMap
        (fun i => dayEvents (results.DaysList.getD (i * 8) zeroSample)
          req.Name req.ZIPCode) ∧
      evs.length = 4 * req.Days.toNat ∧
      evs.countP (fun e => e.topic = "temperature") = req.Days.toNat ∧
      evs.countP (fun e => e.topic = "humidity") = req.Days.toNat ∧
      evs.countP (fun e => e.topic = "wind") = req.Days.toNat ∧
      evs.countP (fun e => e.topic = "cloud") = req.Days.toNat ∧
      ∀ i, i < req.Days.toNat →
        ((dayEvents (results.DaysList.getD (i * 8) zeroSample)
          req.Name req.ZIPCode).map KEvent.topic)
          = ["temperature", "humidity", "wind", "cloud"] := by
  have hloop := pubLoop_eq_range' req.Days results.DaysList req.Name req.ZIPCode
    hlen req.Days.toNat 0 (by omega)
  rw [← List.range_eq_range'] at hloop
  refine ⟨_, ?_, hloop, ?_, ?_, ?_, ?_, ?_, fun i _ => dayEvents_topics _ _ _⟩
  · simp [processRequest, h200]
  · rw [hloop, List.length_flatMap,
      show (List.length ∘ fun j => dayEvents (results.DaysList.getD (j * 8) zeroSample)
        req.Name req.ZIPCode) = fun _ => 4 from funext fun j => rfl]
    simp [mul_comm]
  all_goals
    rw [hloop, List.countP_flatMap]
    simp [Function.comp_def, dayEvents, List.countP_cons]

/-- Concrete instance of the publication count: a one-day request against a
response of eight samples publishes exactly four events. -/
theorem processRequest_event_counts_witness :
    (processRequest ⟨1, "New York", 40, -74, "10001", 1⟩
      ⟨.goString "200", .goNil, List.replicate 8 zeroSample⟩).map List.length
      = some 4 := by
  obtain ⟨evs, h1, _, h3, _⟩ := processRequest_event_counts
    ⟨1, "New York", 40, -74, "10001", 1⟩
    ⟨.goString "200", .goNil, List.replicate 8 zeroSample⟩ rfl (by simp)
  rw [h1]
  simp [h3]

/-- Timestamp of the j-th sample of the provider's fixed-interval sequence:
three-hour spacing (10800 seconds) from the Unix start time t0. -/
def sampleTime (t0 : Int) (j : Nat) : Int := t0 + 10800 * j

/-- The provider's ordered fixed-interval sample sequence (forecast
collaborator interface: an ordered sequence of fixed-interval samples, each
carrying a timestamp). -/
def fiSamples (t0 : Int) (n : Nat) : List DailyResponse :=
  (List.range n).map (fun j => { zeroSample with Time := sampleTime t0 j })

/-- Transcription of the claim C3 wording: position j holds the first
sample of its calendar day when no earlier sample of the sequence falls on
the same calendar day. -/
def firstSampleOfItsDay (lst : List DailyResponse) (j : Nat) : Bool :=
  (lst.take j).all
    (fun r => dayOfUnix r.Time != dayOfUnix (lst.getD j zeroSample).Time)

/-- Element j of the fixed-interval sequence. -/
theorem fiSamples_getD (t0 : Int) {n j : Nat} (h : j < n) :
    (fiSamples t0 n).getD j zeroSample
      = { zeroSample with Time := sampleTime t0 j } := by
  rw [fiSamples, List.getD_eq_getElem?_getD, List.getElem?_eq_getElem (by simpa using h)]
  simp

/-- Calendar day of sample j when the sequence starts at a day boundary. -/
theorem dayOfUnix_sampleTime (k : Int) (j : Nat) :
    dayOfUnix (sampleTime (86400 * k) j) = k + ((j / 8 : Nat) : Int) := by
  rw [dayOfUnix, sampleTime, add_comm,
    Int.add_mul_ediv_left _ k (by norm_num : (86400 : Int) ≠ 0), add_comm]
  congr 1
  have : (10800 : Int) * (j : Int) = ((10800 * j : Nat) : Int) := by push_cast; ring
  rw [this, show ((86400 : Int)) = ((86400 : Nat) : Int) from rfl, ← Int.ofNat_ediv]
  norm_cast
  rw [show (86400 : Nat) = 10800 * 8 from rfl, Nat.mul_div_mul_left _ _ (by norm_num)]

/-- C3 counterexample: with a fixed-interval sequence starting at 23:00
(t0 = 82800), a two-day request publishes the second day from the sample at
index 8, but that sample is not the first sample of its calendar day — the
sample at index 1 already falls on the same calendar day. -/
theorem representative_not_first_of_day :
    processRequest ⟨2, "Town", 40, -74, "10001", 1⟩
        ⟨.goString "200", .goNil, fiSamples 82800 16⟩
      = some (dayEvents ((fiSamples 82800 16).getD 0 zeroSample) "Town" "10001"
          ++ dayEvents ((fiSamples 82800 16).getD 8 zeroSample) "Town" "10001") ∧
    firstSampleOfItsDay (fiSamples 82800 16) 8 = false ∧
    dayOfUnix ((fiSamples 82800 16).getD 1 zeroSample).Time
      = dayOfUnix ((fiSamples 82800 16).getD 8 zeroSample).Time := by
  refine ⟨?_, by decide, by decide⟩
  have h := pubLoop_eq_range' 2 (fiSamples 82800 16) "Town" "10001"
    (by simp [fiSamples]) 2 0 (by decide)
  rw [processRequest, if_neg (by simp)]
  rw [h]
  simp [List.range']

/-- C3 amended: processRequest asks the provider for exactly days*8 raw
samples, and the representative of the i-th requested day is the sample at
index i*8 — the first sample of the i-th consecutive 24-hour block of the
sequence.  When the sequence starts at a calendar-day boundary
(t0 = 86400*k) that sample is also the first sample of its calendar day;
the counterexample shows this fails for unaligned start times. -/
theorem forecast_selection_spec (req : PostLocationRequest)
    (results : APIResponse) (h200 : results.Cod = .goString "200")
    (hlen : req.Days.toNat * 8 ≤ results.DaysList.length) :
    forecastCnt req.Days = req.Days * 8 ∧
    processRequest req results
      = some ((List.range req.Days.toNat).flatMap
          (fun i => dayEvents (results.DaysList.getD (i * 8) zeroSample)
            req.Name req.ZIPCode)) ∧
    ∀ (k : Int) (n i : Nat), i * 8 < n →
      firstSampleOfItsDay (fiSamples (86400 * k) n) (i * 8) = true := by
  refine ⟨rfl, ?_, ?_⟩
  · have hloop := pubLoop_eq_range' req.Days results.DaysList req.Name req.ZIPCode
      hlen req.Days.toNat 0 (by omega)
    rw [← List.range_eq_range'] at hloop
    rw [processRequest, if_neg (by simp [h200]), hloop]
  · intro k n i hin
    rw [firstSampleOfItsDay, List.all_eq_true]
    intro r hr
    rw [fiSamples, ← List.map_take, List.take_range] at hr
    obtain ⟨j, hj, rfl⟩ := List.mem_map.mp hr
    rw [List.mem_range] at hj
    have hj8 : j < i * 8 := lt_of_lt_of_le hj (min_le_left _ _)
    rw [fiSamples_getD _ hin]
    simp only [bne_iff_ne, ne_eq, dayOfUnix_sampleTime]
    intro hcontra
    have : j / 8 = (i * 8) / 8 := by exact_mod_cast add_left_cancel hcontra
    rw [Nat.mul_div_cancel i (by norm_num)] at this
    have : j / 8 < i := (Nat.div_lt_iff_lt_mul (by norm_num)).mpr hj8
    omega

/-- Concrete instance of the amended selection property: a midnight-aligned
sequence makes every selected sample the first of its calendar day, and the
requested sample count for three days is 24. -/
theorem forecast_selection_spec_witness :
    forecastCnt 3 = 24 ∧
    firstSampleOfItsDay (fiSamples (86400 * 1) 16) (1 * 8) = true := by
  have h := forecast_selection_spec ⟨2, "Town", 40, -74, "10001", 1⟩
    ⟨.goString "200", .goNil, fiSamples 0 16⟩ rfl (by simp [fiSamples])
  exact ⟨by decide, h.2.2 1 16 1 (by decide)⟩

/-- ZIPResponse from kafka.go (decoded geocoding reply; Cod and Message are
`any` fields). -/
structure ZIPResponse where
  Zip : String
  Name : String
  Latitude : ℚ
  Longitude : ℚ
  Country : String
  Cod : GoValue
  Message : GoValue
deriving DecidableEq

/-- Outcome of convertToCoordinates: os.Exit(1), skip (returned false), or
a forwarded PostLocationRequest (returned true). -/
inductive ConvertResult where
  | exitProgram : ConvertResult
  | skipRequest : ConvertResult
  | resolved : PostLocationRequest → ConvertResult
deriving DecidableEq

/-- convertToCoordinates from prometheus.go, given the decoded geocoding
response: response.Cod == 401 (Go interface comparison against the int
literal 401) exits the program, response.Cod == "404" skips the request,
anything else builds the PostLocationRequest. -/
def convertToCoordinates (req : PreCoordinateRequest) (response : ZIPResponse) :
    ConvertResult :=
  if response.Cod = .goInt 401 then .exitProgram
  else if response.Cod = .goString "404" then .skipRequest
  else .resolved
    ⟨req.Days, response.Name, response.Latitude, response.Longitude,
     req.ZIPCode, req.LineNum⟩

/-- C6 failing input: the provider reports invalid credentials with a JSON
number 401 in the cod field (the source compares the bare literal 401
against cod while it compares the quoted "404", matching the two provider
payload shapes).  encoding/json stores a JSON number read into an `any`
field as a float64, and Go interface equality never equates a float64 with
the int 401, so the invalid-credential response falls through both checks
and the worker forwards a resolved location instead of exiting — contrary
to the comment above the check ("If API key was not valid, end the
program"). -/
theorem convertToCoordinates_auth_error_not_fatal :
    decodeJsonAny (some (.inr 401)) = .goFloat 401 ∧
    convertToCoordinates ⟨3, "10001", 1⟩
        ⟨"", "", 0, 0, "", decodeJsonAny (some (.inr 401)),
         decodeJsonAny (some (.inl "Invalid API key"))⟩
      = .resolved ⟨3, "", 0, 0, "10001", 1⟩ ∧
    convertToCoordinates ⟨3, "10001", 1⟩
        ⟨"", "", 0, 0, "", decodeJsonAny (some (.inr 401)),
         decodeJsonAny (some (.inl "Invalid API key"))⟩
      ≠ .exitProgram := by
  refine ⟨rfl, rfl, by decide⟩

/-- strconv.Atoi: optional sign followed by at least one ASCII digit; a
value outside the int64 range is a range error. -/
def goAtoi (s : String) : Option Int :=
  let core : List Char → Option Nat := fun ds =>
    if ds.isEmpty then none
    else if ds.all Char.isDigit then
      some (ds.foldl (fun acc c => acc * 10 + (c.toNat - 48)) 0)
    else none
  match s.data with
  | '-' :: rest => (core rest).bind
      (fun n => if (n : Int) ≤ 2 ^ 63 then some (-(n : Int)) else none)
  | '+' :: rest => (core rest).bind
      (fun n => if (n : Int) < 2 ^ 63 then some (n : Int) else none)
  | ds => (core ds).bind
      (fun n => if (n : Int) < 2 ^ 63 then some (n : Int) else none)

/-- strings.Split(text, "|") on the character list: split at every pipe
character, keeping empty fields (the empty string yields one empty field,
exactly as in Go). -/
def splitPipe : List Char → List (List Char)
  | [] => [[]]
  | c :: cs =>
      match splitPipe cs with
      | [] => [[]]
      | field :: rest =>
          if c = '|' then [] :: field :: rest
          else (c :: field) :: rest

/-- strings.TrimSpace on the character list (the exotic Unicode space
characters Go also trims are not modelled). -/
def trimSpace (ds : List Char) : List Char :=
  ((ds.dropWhile Char.isWhitespace).reverse.dropWhile Char.isWhitespace).reverse

/-- parseLine from kafka.go: split the line at every pipe character,
require exactly two fields, trim spaces, require a positive integer day
count, and clamp a day count above 5 down to 5 (the free-API limit). -/
def parseLine (text : String) (lineNum : Int) : Option PreCoordinateRequest :=
  let parameters := splitPipe text.data
  if parameters.length ≠ 2 then none
  else
    match goAtoi (String.mk (trimSpace (parameters.getD 0 []))) with
    | none => none
    | some days =>
        if days ≤ 0 then none
        else if days > 5 then
          some ⟨5, String.mk (trimSpace (parameters.getD 1 [])), lineNum⟩
        else some ⟨days, String.mk (trimSpace (parameters.getD 1 [])), lineNum⟩

/-- C8: every request that parseLine accepts has a day count that is
positive and at most the provider limit 5. -/
theorem parseLine_day_bounds (text : String) (lineNum : Int)
    (req : PreCoordinateRequest) (h : parseLine text lineNum = some req) :
    1 ≤ req.Days ∧ req.Days ≤ 5 := by
  rw [parseLine] at h
  split at h
  · exact absurd h (by simp)
  · split at h
    · exact Option.noConfusion h
    · split at h
      · exact Option.noConfusion h
      · split at h
        · obtain rfl := Option.some_injective _ h
          exact ⟨by norm_num, by norm_num⟩
        · obtain rfl := Option.some_injective _ h
          dsimp only
          constructor <;> omega

/-- Concrete accepted lines: a plain request parses with its day count, and
an oversized day count is clamped to 5. -/
theorem parseLine_day_bounds_witness :
    (1 ≤ (3 : Int) ∧ (3 : Int) ≤ 5) ∧ (1 ≤ (5 : Int) ∧ (5 : Int) ≤ 5) :=
  ⟨parseLine_day_bounds "3|10001" 1 ⟨3, "10001", 1⟩ (by decide),
   parseLine_day_bounds "9|10001" 2 ⟨5, "10001", 2⟩ (by decide)⟩

/-- Split a character list at the first occurrence of a separator
character: `none` when the separator does not occur. -/
def splitFirstChar (sep : Char) : List Char → Option (List Char × List Char)
  | [] => none
  | c :: cs =>
      if c = sep then some ([], cs)
      else
        match splitFirstChar sep cs with
        | none => none
        | some (a, b) => some (c :: a, b)

/-- strings.SplitN(key, "-", 2): the whole string when it holds no dash,
otherwise the part before the first dash and all of the rest. -/
def splitN2Dash (s : String) : List String :=
  match splitFirstChar '-' s.data with
  | none => [s]
  | some (a, b) => [String.mk a, String.mk b]

/-- Key decoding in consumeKafkaTopic: keyParts := SplitN(key, "-", 2),
Zip := keyParts[0], Date := keyParts[1].  `none` models the index-out-of-
range panic on a key without a dash. -/
def decodeKafkaKey (key : String) : Option (String × String) :=
  match splitN2Dash key with
  | [z, d] => some (z, d)
  | _ => none

/-- Key encoding in processRequest: fmt.Sprintf joining the ZIP code and
the date with a dash. -/
def encodeKafkaKey (zipCode date : String) : String := zipCode ++ "-" ++ date

/-- Splitting at the first separator after the separator-free left part
recovers both parts. -/
theorem splitFirstChar_append (sep : Char) (ds : List Char) :
    ∀ zs : List Char, sep ∉ zs →
      splitFirstChar sep (zs ++ sep :: ds) = some (zs, ds) := by
  intro zs
  induction zs with
  | nil => intro _; simp [splitFirstChar]
  | cons c cs ih =>
      intro h
      rw [List.cons_append, splitFirstChar,
        if_neg (fun hc => h (List.mem_cons.mpr (Or.inl hc.symm))),
        ih (fun hm => h (List.mem_cons.mpr (Or.inr hm)))]

/-- C10: the consumer recovers a published message key by splitting at the
first dash; when the location code holds no dash the recovered pair is
exactly the ZIP code and date that were concatenated at publish time, and
every event of a per-day publish block carries that key. -/
theorem kafka_key_roundtrip (zipCode date : String)
    (h : '-' ∉ zipCode.data) :
    decodeKafkaKey (encodeKafkaKey zipCode date) = some (zipCode, date) ∧
    ∀ r location, (dayEvents r location zipCode).map KEvent.key
      = List.replicate 4 (encodeKafkaKey zipCode (dateOfUnix r.Time)) := by
  constructor
  · have hdata : (encodeKafkaKey zipCode date).data
        = zipCode.data ++ '-' :: date.data := by
      rw [encodeKafkaKey, String.data_append, String.data_append,
        List.append_assoc]
      rfl
    rw [decodeKafkaKey, splitN2Dash, hdata, splitFirstChar_append _ _ _ h]
  · intro r location
    rfl

/-- Concrete key round trip for ZIP 10001 and a dashed calendar date. -/
theorem kafka_key_roundtrip_witness :
    decodeKafkaKey (encodeKafkaKey "10001" "2025-10-17")
      = some ("10001", "2025-10-17") :=
  (kafka_key_roundtrip "10001" "2025-10-17" (by decide)).1

/-- strings.Trim(s, cutset) for the cutset of the two quote characters that
main strips from its environment inputs. -/
def trimQuoteChars (s : String) : String :=
  String.mk
    (((s.data.dropWhile (fun c => c = '\'' ∨ c = '"')).reverse.dropWhile
        (fun c => c = '\'' ∨ c = '"')).reverse)

/-- Digit run read as a natural number. -/
def digitsToNat (ds : List Char) : Nat :=
  ds.foldl (fun acc c => acc * 10 + (c.toNat - 48)) 0

/-- strconv.ParseFloat restricted to the plain decimal shapes relevant to
the deployment configuration: optional sign, then digits with at most one
decimal point and at least one digit overall.  Exponents, hex floats, Inf
and NaN are not modelled; every other input — the empty string of an
absent environment variable in particular — is a parse error. -/
def goParseFloat (s : String) : Option ℚ :=
  let parseMag : List Char → Option ℚ := fun ds =>
    match splitFirstChar '.' ds with
    | none =>
        if ds.isEmpty then none
        else if ds.all Char.isDigit then some (digitsToNat ds) else none
    | some (ip, fp) =>
        if ip.isEmpty ∧ fp.isEmpty then none
        else if ip.all Char.isDigit ∧ fp.all Char.isDigit then
          some (digitsToNat ip + digitsToNat fp / 10 ^ fp.length)
        else none
  match s.data with
  | '-' :: rest => (parseMag rest).map Neg.neg
  | '+' :: rest => parseMag rest
  | ds => parseMag ds

/-- Alert-threshold initialisation from init in prometheus.go: each value
is parsed from its environment variable and falls back to the documented
default when parsing fails (an absent variable reads as the empty
string). -/
def initAlertConfig (eTL eTH eHL eHH eWH : String) : AlertConfig :=
  ⟨(goParseFloat eTL).getD 32, (goParseFloat eTH).getD 90,
   (goParseFloat eHL).getD 30, (goParseFloat eHH).getD 70,
   (goParseFloat eWH).getD 40⟩

/-- Worker-count initialisation from main: quotes are trimmed, then Atoi; a
parse error or a nonpositive value falls back to DEFAULT_NUM_WORKERS =
10. -/
def parseNumWorkers (envWorkers : String) : Int :=
  match goAtoi (trimQuoteChars envWorkers) with
  | none => 10
  | some n => if n ≤ 0 then 10 else n

/-- Readiness timeout main passes to waitForGrafana: 60 seconds. -/
def grafanaWaitTimeoutSeconds : Nat := 60

/-- C9: when the environment variables are absent or unparsable, the
configuration takes exactly the documented defaults — 10 workers,
temperature thresholds 32 and 90, humidity thresholds 30 and 70, wind-high
threshold 40, and a 60-second Grafana readiness timeout. -/
theorem config_defaults (w tl th hl hh wh : String)
    (hw : goAtoi (trimQuoteChars w) = none)
    (h1 : goParseFloat tl = none) (h2 : goParseFloat th = none)
    (h3 : goParseFloat hl = none) (h4 : goParseFloat hh = none)
    (h5 : goParseFloat wh = none) :
    parseNumWorkers w = 10 ∧
    initAlertConfig tl th hl hh wh = ⟨32, 90, 30, 70, 40⟩ ∧
    grafanaWaitTimeoutSeconds = 60 := by
  refine ⟨?_, ?_, rfl⟩
  · rw [parseNumWorkers, hw]
  · rw [initAlertConfig, h1, h2, h3, h4, h5]
    rfl

/-- Concrete default configuration: every environment variable absent
(read as the empty string). -/
theorem config_defaults_witness :
    parseNumWorkers "" = 10 ∧
    initAlertConfig "" "" "" "" "" = ⟨32, 90, 30, 70, 40⟩ ∧
    grafanaWaitTimeoutSeconds = 60 :=
  config_defaults "" "" "" "" "" "" (by decide) (by decide) (by decide)
    (by decide) (by decide) (by decide)

/-- Program counter of main through the staged shutdown sequence of
prometheus.go (the statements after the scanner loop): wait for the
file-reader goroutines (fileWG.Wait), close preCoordinateChan, wait for
the ZIP workers (zipCodeWG.Wait), close requestsChan, wait for the result
workers (resultsWG.Wait), cancel the consumer context, wait for the Kafka
consumers (kafkaWG.Wait), close metricsChan, wait for the Prometheus
workers (promWG.Wait). -/
inductive MainPC where
  | waitFile
  | closePre
  | waitZip
  | closeReq
  | waitResults
  | doCancel
  | waitKafka
  | closeMetrics
  | waitProm
  | finished
deriving DecidableEq

/-- Position of a program counter in the shutdown order. -/
def MainPC.rank : MainPC → Nat
  | .waitFile => 0
  | .closePre => 1
  | .waitZip => 2
  | .closeReq => 3
  | .waitResults => 4
  | .doCancel => 5
  | .waitKafka => 6
  | .closeMetrics => 7
  | .waitProm => 8
  | .finished => 9

/-- Global state of the pipeline during shutdown: the position of main, the
live-goroutine count of each pool (the counters of fileWG, zipCodeWG,
resultsWG, kafkaWG and promWG), the closed flag of each channel, and the
consumer-context cancellation flag. -/
structure PipeState where
  pc : MainPC
  fileW : Nat
  zipW : Nat
  resW : Nat
  kafkaW : Nat
  promW : Nat
  preClosed : Bool
  reqClosed : Bool
  metricsClosed : Bool
  cancelled : Bool
deriving DecidableEq

/-- Actions of the interleaving semantics: a channel send by a live worker
of the sending pool, the return of a worker, or the next statement of
main. -/
inductive PipeAct where
  | fileSend
  | fileRet
  | zipSend
  | zipRet
  | resRet
  | kafkaSend
  | kafkaRet
  | promRet
  | mainStep
deriving DecidableEq

/-- One interleaved step of the pipeline.  A live file-reader goroutine may
send on preCoordinateChan and returns unconditionally; a live ZIP worker
may send on requestsChan and returns only once preCoordinateChan is closed
(its range loop then ends); a live result worker returns only once
requestsChan is closed; a live Kafka consumer may send on metricsChan and
returns only once the context is cancelled (ReadMessage then yields
context.Canceled); a live Prometheus worker returns only once metricsChan
is closed.  Main blocks on each Wait until the matching counter is zero,
and its close and cancel statements set the corresponding flag. -/
inductive PipeStep : PipeState → PipeAct → PipeState → Prop where
  | fileSend (s : PipeState) : 0 < s.fileW → PipeStep s .fileSend s
  | fileRet (s : PipeState) : 0 < s.fileW →
      PipeStep s .fileRet { s with fileW := s.fileW - 1 }
  | zipSend (s : PipeState) : 0 < s.zipW → PipeStep s .zipSend s
  | zipRet (s : PipeState) : 0 < s.zipW → s.preClosed = true →
      PipeStep s .zipRet { s with zipW := s.zipW - 1 }
  | resRet (s : PipeState) : 0 < s.resW → s.reqClosed = true →
      PipeStep s .resRet { s with resW := s.resW - 1 }
  | kafkaSend (s : PipeState) : 0 < s.kafkaW → PipeStep s .kafkaSend s
  | kafkaRet (s : PipeState) : 0 < s.kafkaW → s.cancelled = true →
      PipeStep s .kafkaRet { s with kafkaW := s.kafkaW - 1 }
  | promRet (s : PipeState) : 0 < s.promW → s.metricsClosed = true →
      PipeStep s .promRet { s with promW := s.promW - 1 }
  | mainWaitFile (s : PipeState) : s.pc = .waitFile → s.fileW = 0 →
      PipeStep s .mainStep { s with pc := .closePre }
  | mainClosePre (s : PipeState) : s.pc = .closePre →
      PipeStep s .mainStep { s with pc := .waitZip, preClosed := true }
  | mainWaitZip (s : PipeState) : s.pc = .waitZip → s.zipW = 0 →
      PipeStep s .mainStep { s with pc := .closeReq }
  | mainCloseReq (s : PipeState) : s.pc = .closeReq →
      PipeStep s .mainStep { s with pc := .waitResults, reqClosed := true }
  | mainWaitResults (s : PipeState) : s.pc = .waitResults → s.resW = 0 →
      PipeStep s .mainStep { s with pc := .doCancel }
  | mainCancel (s : PipeState) : s.pc = .doCancel →
      PipeStep s .mainStep { s with pc := .waitKafka, cancelled := true }
  | mainWaitKafka (s : PipeState) : s.pc = .waitKafka → s.kafkaW = 0 →
      PipeStep s .mainStep { s with pc := .closeMetrics }
  | mainCloseMetrics (s : PipeState) : s.pc = .closeMetrics →
      PipeStep s .mainStep { s with pc := .waitProm, metricsClosed := true }
  | mainWaitProm (s : PipeState) : s.pc = .waitProm → s.promW = 0 →
      PipeStep s .mainStep { s with pc := .finished }

/-- Start of the shutdown protocol: main at fileWG.Wait() with every pool
at an arbitrary size, nothing closed, nothing cancelled.  All goroutines
are spawned before main reaches the shutdown sequence; worker activity
that happens while main still scans the input file is modelled by steps
taken while main sits at waitFile. -/
def initPipe (nFile nZip nRes nKafka nProm : Nat) : PipeState :=
  ⟨.waitFile, nFile, nZip, nRes, nKafka, nProm, false, false, false, false⟩

/-- Reachable states of the shutdown protocol. -/
inductive PipeReach : PipeState → Prop where
  | start (nFile nZip nRes nKafka nProm : Nat) :
      PipeReach (initPipe nFile nZip nRes nKafka nProm)
  | step {s : PipeState} {a : PipeAct} {s2 : PipeState} :
      PipeReach s → PipeStep s a s2 → PipeReach s2

/-- An action is channel-safe in a state when it sends only on a channel
that is still open and closes only a channel that is still open (so it can
neither send on a closed channel nor close a channel twice). -/
def actSafe (s : PipeState) (a : PipeAct) : Prop :=
  match a with
  | .fileSend => s.preClosed = false
  | .zipSend => s.reqClosed = false
  | .kafkaSend => s.metricsClosed = false
  | .mainStep =>
      (s.pc = .closePre → s.preClosed = false) ∧
      (s.pc = .closeReq → s.reqClosed = false) ∧
      (s.pc = .closeMetrics → s.metricsClosed = false)
  | _ => True

/-- Inductive invariant of the shutdown protocol: once main has passed a
Wait, the corresponding pool is empty, and each closed flag (and the
cancellation flag) is set exactly when main has executed the corresponding
statement. -/
def pipeInv (s : PipeState) : Prop :=
  (1 ≤ s.pc.rank → s.fileW = 0) ∧
  (s.preClosed = true ↔ 2 ≤ s.pc.rank) ∧
  (3 ≤ s.pc.rank → s.zipW = 0) ∧
  (s.reqClosed = true ↔ 4 ≤ s.pc.rank) ∧
  (s.cancelled = true ↔ 6 ≤ s.pc.rank) ∧
  (7 ≤ s.pc.rank → s.kafkaW = 0) ∧
  (s.metricsClosed = true ↔ 8 ≤ s.pc.rank)

/-- The invariant holds initially. -/
theorem pipeInv_initPipe (nFile nZip nRes nKafka nProm : Nat) :
    pipeInv (initPipe nFile nZip nRes nKafka nProm) := by
  simp [pipeInv, initPipe, MainPC.rank]

/-- The invariant is preserved by every step. -/
theorem pipeInv_step {s : PipeState} {a : PipeAct} {s2 : PipeState}
    (h : pipeInv s) (hs : PipeStep s a s2) : pipeInv s2 := by
  obtain ⟨h1, h2, h3, h4, h5, h6, h7⟩ := h
  cases hs <;>
    simp_all [pipeInv, MainPC.rank]

/-- Every reachable state satisfies the invariant. -/
theorem pipeReach_inv {s : PipeState} (h : PipeReach s) : pipeInv s := by
  induction h with
  | start nFile nZip nRes nKafka nProm => exact pipeInv_initPipe _ _ _ _ _
  | step _ hs ih => exact pipeInv_step ih hs

/-- C7: in every execution of the shutdown protocol, every enabled action
is channel-safe — workers send only on channels that are still open, and
each of the three closes of main happens while its channel is still open —
so a send on a closed channel or a double close never occurs. -/
theorem shutdown_channel_safety (s : PipeState) (a : PipeAct) (s2 : PipeState)
    (hr : PipeReach s) (hs : PipeStep s a s2) : actSafe s a := by
  obtain ⟨h1, h2, h3, h4, h5, h6, h7⟩ := pipeReach_inv hr
  cases hs with
  | fileSend hw =>
      show s.preClosed = false
      cases hp : s.preClosed with
      | false => rfl
      | true =>
          have := h1 (le_trans (by norm_num) (h2.mp hp))
          omega
  | zipSend hw =>
      show s.reqClosed = false
      cases hp : s.reqClosed with
      | false => rfl
      | true =>
          have := h3 (le_trans (by norm_num) (h4.mp hp))
          omega
  | kafkaSend hw =>
      show s.metricsClosed = false
      cases hp : s.metricsClosed with
      | false => rfl
      | true =>
          have := h6 (le_trans (by norm_num) (h7.mp hp))
          omega
  | fileRet hw => trivial
  | zipRet hw hc => trivial
  | resRet hw hc => trivial
  | kafkaRet hw hc => trivial
  | promRet hw hc => trivial
  | mainWaitFile hpc hz =>
      refine ⟨fun hc => ?_, fun hc => ?_, fun hc => ?_⟩ <;>
        · rw [hpc] at hc; exact absurd hc (by decide)
  | mainClosePre hpc =>
      refine ⟨fun _ => ?_, fun hc => ?_, fun hc => ?_⟩
      · cases hp : s.preClosed with
        | false => rfl
        | true =>
            have := h2.mp hp
            rw [hpc] at this
            exact absurd this (by decide)
      · rw [hpc] at hc; exact absurd hc (by decide)
      · rw [hpc] at hc; exact absurd hc (by decide)
  | mainWaitZip hpc hz =>
      refine ⟨fun hc => ?_, fun hc => ?_, fun hc => ?_⟩ <;>
        · rw [hpc] at hc; exact absurd hc (by decide)
  | mainCloseReq hpc =>
      refine ⟨fun hc => ?_, fun _ => ?_, fun hc => ?_⟩
      · rw [hpc] at hc; exact absurd hc (by decide)
      · cases hp : s.reqClosed with
        | false => rfl
        | true =>
            have := h4.mp hp
            rw [hpc] at this
            exact absurd this (by decide)
      · rw [hpc] at hc; exact absurd hc (by decide)
  | mainWaitResults hpc hz =>
      refine ⟨fun hc => ?_, fun hc => ?_, fun hc => ?_⟩ <;>
        · rw [hpc] at hc; exact absurd hc (by decide)
  | mainCancel hpc =>
      refine ⟨fun hc => ?_, fun hc => ?_, fun hc => ?_⟩ <;>
        · rw [hpc] at hc; exact absurd hc (by decide)
  | mainWaitKafka hpc hz =>
      refine ⟨fun hc => ?_, fun hc => ?_, fun hc => ?_⟩ <;>
        · rw [hpc] at hc; exact absurd hc (by decide)
  | mainCloseMetrics hpc =>
      refine ⟨fun hc => ?_, fun hc => ?_, fun _ => ?_⟩
      · rw [hpc] at hc; exact absurd hc (by decide)
      · rw [hpc] at hc; exact absurd hc (by decide)
      · cases hp : s.metricsClosed with
        | false => rfl
        | true =>
            have := h7.mp hp
            rw [hpc] at this
            exact absurd this (by decide)
  | mainWaitProm hpc hz =>
      refine ⟨fun hc => ?_, fun hc => ?_, fun hc => ?_⟩ <;>
        · rw [hpc] at hc; exact absurd hc (by decide)

/-- Concrete safe action: in the initial state with one worker per pool, a
file-reader send on preCoordinateChan targets an open channel. -/
theorem shutdown_channel_safety_witness :
    actSafe (initPipe 1 1 1 1 1) .fileSend :=
  shutdown_channel_safety (initPipe 1 1 1 1 1) .fileSend (initPipe 1 1 1 1 1)
    (PipeReach.start 1 1 1 1 1) (PipeStep.fileSend _ (by decide))

end Proj2
